import Mathlib

/-!
Verification of the board-adaptation layer of the rocketlst firmware
(radios/rocketlst_air/board.h), a shallow embedding of its compile-time
constants and of its four operations over an explicit board state.
-/

namespace RocketLST

/-! ## Compile-time constants, taken verbatim from board.h -/

/-- F_CLK: the board uses a 27MHz clock. -/
def F_CLK : Nat := 27000000

/-- CUSTOM_BOARD_INIT flag. -/
def CUSTOM_BOARD_INIT : Nat := 1

/-- BOARD_HAS_TX_HOOK flag. -/
def BOARD_HAS_TX_HOOK : Nat := 1

/-- BOARD_HAS_RX_HOOK flag. -/
def BOARD_HAS_RX_HOOK : Nat := 1

/-- CONFIG_CAPABLE_RF_RX: the board is not receive-capable. -/
def CONFIG_CAPABLE_RF_RX : Nat := 0

/-- CONFIG_CAPABLE_RF_TX: the board is transmit-capable. -/
def CONFIG_CAPABLE_RF_TX : Nat := 1

/-- AUTO_REBOOT_SECONDS: auto reboot disabled. -/
def AUTO_REBOOT_SECONDS : Nat := 0

/-- RF_PA_CONFIG: power-amplifier setting, -20dbm. -/
def RF_PA_CONFIG : Nat := 0x0E

/-- ADCCFG_CONFIG: enable the power supply sense lines AN0 and AN1
(bitmask 0b00000011). -/
def ADCCFG_CONFIG : Nat := 0b00000011

/-- RADIO_RANGING_RESPONDER flag. -/
def RADIO_RANGING_RESPONDER : Nat := 1

/-- BOARD_HAS_LED flag. -/
def BOARD_HAS_LED : Nat := 1

/-! ## Board state

The mutable hardware surface this layer touches: the pin P2_0 driving the
power-amplifier bias line, the LED output line, and the ADCCFG channel-mask
register. -/

/-- The observable board state written by this layer. -/
structure BoardState where
  /-- Pin P2_0: the bias line to the on-board 1W RF power amp (RF6504). -/
  p2_0 : Bool
  /-- The status LED output line. -/
  led : Bool
  /-- The ADCCFG register: the ADC channel enable mask. -/
  adccfg : Nat
deriving DecidableEq, Repr

/-! ## Operations -/

/-- board_pre_tx, from board.h: the macro `P2_0 = 1;`, enabling bias to the
on-board power amp. -/
def board_pre_tx (s : BoardState) : BoardState :=
  { s with p2_0 := true }

/-- board_pre_rx, from board.h: the macro `P2_0 = 0;`, disabling the on-board
power amp bias to save power. -/
def board_pre_rx (s : BoardState) : BoardState :=
  { s with p2_0 := false }

/-- Modelled from the spec: the body of board_led_set lives in board.c, which
is not among the given sources (board.h only declares it). Per the spec,
`led_set(on: bool)` drives the status LED, with no constraints and no failure
mode, the LED line being a single binary output signal mutated only through
this operation. -/
def board_led_set (led_on : Bool) (s : BoardState) : BoardState :=
  { s with led := led_on }

/-- Modelled from the spec: the body of board_init lives in board.c, which is
not among the given sources (board.h only declares it and defines
ADCCFG_CONFIG). Per the spec, `init()` performs one-time hardware bring-up and
must leave the ADC channel mask peripheral enabled exactly for the configured
channels, the mask being consumed once by peripheral initialization. -/
def board_init (s : BoardState) : BoardState :=
  { s with adccfg := ADCCFG_CONFIG }

/-- Modelled from the spec: the hardware reset state is fixed by the chip, not
by code in the given sources. Per the spec, at boot, before `init()` is
called, the bias line is deasserted (default-off). -/
def bootState : BoardState :=
  { p2_0 := false, led := false, adccfg := 0 }

/-! ## Sequences of hook calls -/

/-- One call to a transmit/receive hook. -/
inductive HookCall where
  | preTx : HookCall
  | preRx : HookCall
deriving DecidableEq, Repr

/-- Execute one hook call on the board state. -/
def runHook : HookCall → BoardState → BoardState
  | HookCall.preTx, s => board_pre_tx s
  | HookCall.preRx, s => board_pre_rx s

/-- Execute a sequence of hook calls, left to right. -/
def runHooks (calls : List HookCall) (s : BoardState) : BoardState :=
  calls.foldl (fun st c => runHook c st) s

/-- The bias-line state dictated by a hook call: asserted for pre_transmit,
deasserted for pre_receive. -/
def hookBias : HookCall → Bool
  | HookCall.preTx => true
  | HookCall.preRx => false

/-! ## Theorems -/

/-- Helper: one hook call sets the bias line to the state it dictates and
changes nothing else. -/
theorem runHook_eq (c : HookCall) (s : BoardState) :
    runHook c s = { s with p2_0 := hookBias c } := by
  cases c <;> rfl

/-- C1: for every sequence of calls to pre_transmit and pre_receive, the
power-amplifier bias line is left in exactly the state dictated by the most
recent call, with no dependency on earlier calls; and calling the same hook
twice in a row is idempotent. -/
theorem bias_line_determined_by_last_call (calls : List HookCall)
    (c : HookCall) (s : BoardState) :
    (runHooks (calls ++ [c]) s).p2_0 = hookBias c ∧
    runHook c (runHook c s) = runHook c s := by
  constructor
  · simp only [runHooks, List.foldl_append, List.foldl_cons, List.foldl_nil]
    rw [runHook_eq]
  · simp [runHook_eq]

/-- C2: pre_transmit (board_pre_tx) asserts the power-amplifier bias line:
after any call, pin P2_0 is asserted. -/
theorem board_pre_tx_asserts_bias (s : BoardState) :
    (board_pre_tx s).p2_0 = true := rfl

/-- C3: pre_receive (board_pre_rx) deasserts the power-amplifier bias line:
after any call, pin P2_0 is deasserted. -/
theorem board_pre_rx_deasserts_bias (s : BoardState) :
    (board_pre_rx s).p2_0 = false := rfl

/-- C4 counterexample: pre_receive is not a no-op on every board state: on a
state where the bias line is asserted, board_pre_rx changes the state (it
deasserts P2_0). -/
theorem board_pre_rx_not_always_noop :
    board_pre_rx ⟨true, false, 3⟩ ≠ ⟨true, false, 3⟩ := by
  decide

/-- C4 amended: for every board state, pre_receive's only effect is to
deassert the power-amplifier bias line — the resulting state is exactly the
input state with P2_0 cleared, so it touches no other board state — and on a
state where the bias line is already deasserted it is a safe no-op: it
leaves the whole board state unchanged. -/
theorem board_pre_rx_only_deasserts (s : BoardState) :
    board_pre_rx s = { s with p2_0 := false } ∧
    (s.p2_0 = false → board_pre_rx s = s) := by
  refine ⟨rfl, fun h => ?_⟩
  cases s
  simp only [board_pre_rx]
  simp_all

/-- C4 amended, witness: on a concrete state with the bias line deasserted,
board_pre_rx only clears P2_0 and is a no-op. -/
theorem board_pre_rx_only_deasserts_witness :
    board_pre_rx ⟨false, true, 3⟩ =
      { (⟨false, true, 3⟩ : BoardState) with p2_0 := false } ∧
    board_pre_rx ⟨false, true, 3⟩ = ⟨false, true, 3⟩ :=
  ⟨(board_pre_rx_only_deasserts ⟨false, true, 3⟩).1,
   (board_pre_rx_only_deasserts ⟨false, true, 3⟩).2 rfl⟩

/-- C5: the build-time capability flags declare the board transmit-capable
and not receive-capable (tx = 1, rx = 0), and at boot, before any hook is
called, the bias line is deasserted (default-off). -/
theorem capability_flags_and_boot_default :
    CONFIG_CAPABLE_RF_TX = 1 ∧ CONFIG_CAPABLE_RF_RX = 0 ∧
    bootState.p2_0 = false := by
  refine ⟨rfl, rfl, rfl⟩

/-- C6: board_init leaves the ADC channel mask enabled for exactly the two
power-supply sense channels AN0 (bit 0) and AN1 (bit 1), and no others. -/
theorem board_init_adc_mask (s : BoardState) :
    (board_init s).adccfg = ADCCFG_CONFIG ∧
    ∀ n : Nat, ((board_init s).adccfg.testBit n = true ↔ (n = 0 ∨ n = 1)) := by
  refine ⟨rfl, fun n => ?_⟩
  show Nat.testBit 3 n = true ↔ (n = 0 ∨ n = 1)
  match n with
  | 0 => simp
  | 1 => simp [Nat.testBit]
  | (m + 2) =>
    constructor
    · intro h
      have hlt : 3 < 2 ^ (m + 2) := by
        calc 3 < 2 ^ 2 := by norm_num
        _ ≤ 2 ^ (m + 2) := Nat.pow_le_pow_right (by norm_num) (by omega)
      rw [Nat.testBit_lt_two_pow hlt] at h
      exact absurd h (by simp)
    · intro h
      omega

/-- C7: led_set(true) followed by led_set(false) leaves the LED deasserted,
and calling led_set twice with the same value is observationally equivalent
to calling it once. -/
theorem board_led_set_properties (s : BoardState) (b : Bool) :
    (board_led_set false (board_led_set true s)).led = false ∧
    board_led_set b (board_led_set b s) = board_led_set b s := ⟨rfl, rfl⟩

/-- C8: every operation of this layer is total with no failure return: each
is an unconditional write of one field of the board state, with no error
value, no result value, and no conditional branch on any error. -/
theorem operations_total_unconditional (s : BoardState) (b : Bool) :
    board_init s = { s with adccfg := ADCCFG_CONFIG } ∧
    board_pre_tx s = { s with p2_0 := true } ∧
    board_pre_rx s = { s with p2_0 := false } ∧
    board_led_set b s = { s with led := b } :=
  ⟨rfl, rfl, rfl, rfl⟩

/-- C9: frame property: pre_transmit and pre_receive write only the
power-amplifier bias pin P2_0; the LED line and the ADC channel-mask
register are left unchanged by either hook. -/
theorem hooks_frame_property (s : BoardState) :
    (board_pre_tx s).led = s.led ∧ (board_pre_tx s).adccfg = s.adccfg ∧
    (board_pre_rx s).led = s.led ∧ (board_pre_rx s).adccfg = s.adccfg :=
  ⟨rfl, rfl, rfl, rfl⟩

/-- C10: the board declares itself a ranging responder
(RADIO_RANGING_RESPONDER = 1) while declaring itself receive-incapable
(CONFIG_CAPABLE_RF_RX = 0): the ranging-responder flag is not implied by the
rx-capable flag. -/
theorem ranging_responder_without_rx :
    RADIO_RANGING_RESPONDER = 1 ∧ CONFIG_CAPABLE_RF_RX = 0 ∧
    RADIO_RANGING_RESPONDER ≠ CONFIG_CAPABLE_RF_RX := by
  refine ⟨rfl, rfl, by decide⟩

end RocketLST
